import Mathlib

/-!
Shallow embedding of the providah registry
(`src/providah/factories/package_factory.py` and
`src/providah/factories/providah_error.py`), and theorems about it.

Python strings are Lean `String`s; Python `str.lower()` is embedded as
`pyLower` (the data-level form of `String.toLower`, proved equal below, so
that concrete instances evaluate in the kernel); Python class objects are
the opaque type `PyClass`, with a distinguished value for the
`PackageFactory` class itself; an optional string parameter defaulting to
`None` is an `Option String`; exceptions are `Except`.
-/

/-- A Python class object (the values bound to public module members and
stored as `class_def`). `packageFactoryClass` is the `PackageFactory`
class itself; `cls n` is any other class, identified opaquely by a tag. -/
inductive PyClass where
  | packageFactoryClass
  | cls (tag : String)
deriving DecidableEq

/-- Python `str.lower()` in the basic-latin range, written on the
character data so that it evaluates by kernel reduction. It is exactly
`String.toLower` (see `pyLower_eq_toLower`). -/
def pyLower (s : String) : String := ⟨s.data.map Char.toLower⟩

/-- Python `str(x)` applied to an optional string: `str(None) = "None"`. -/
def pyStr (o : Option String) : String :=
  match o with
  | some s => s
  | none => "None"

/-- Python truthiness of an optional string argument (`if library:`):
`None` and the empty string are falsy, all other strings truthy. -/
def truthy (o : Option String) : Bool :=
  match o with
  | some s => !s.data.isEmpty
  | none => false

/-- Python `str.startswith` with argument `_`, on the character data. -/
def startsWithUnderscore (s : String) : Bool :=
  match s.data with
  | c :: _ => c == '_'
  | [] => false

/-- Registry entry (`class Entry(NamedTuple)` in `package_factory.py`):
`key`, `class_def`, `library`, `label`. -/
structure Entry where
  key : String
  class_def : PyClass
  library : String
  label : String
deriving DecidableEq

/-- Python `**kwargs`: a finite map of named constructor arguments,
modelled as an association list with opaque string values. -/
abbrev Kwargs := List (String × String)

/-- The value of `entries[0].class_def(**kwargs)`: an instance of class
`class_def` constructed with named arguments `kwargs`. -/
structure Instance where
  class_def : PyClass
  kwargs : Kwargs
deriving DecidableEq

/-- The single error type of the library (`ProvidahError`). The Python
class carries only a message string; the constructors here record which
`create`/scan branch raised and the data interpolated into the message of that branch (so two errors are equal iff their messages are equal). -/
inductive ProvidahError where
  | unknownKey (key : String)
  | unknownLibrary (library key : String)
  | unknownLabel (label key : String)
  | ambiguousEntry (key : String) (label library : Option String) (count : Nat)
  | scanFailure (cause : String)
deriving DecidableEq

deriving instance DecidableEq for Except

namespace PackageFactory

/-- The `new_entry` built at the top of `PackageFactory.register`:
`Entry(key=key.lower(), class_def=class_def, library=str(library).lower(),
label=str(label).lower())`. -/
def mkEntry (key : String) (class_def : PyClass) (library label : Option String) : Entry :=
  { key := pyLower key
    class_def := class_def
    library := pyLower (pyStr library)
    label := pyLower (pyStr label) }

/-- Embeds `PackageFactory.register`: build `new_entry` and append it to the
registry unless an identical entry is already present. -/
def register (reg : List Entry) (key : String) (class_def : PyClass)
    (library label : Option String) : List Entry :=
  let new_entry := mkEntry key class_def library label
  if new_entry ∈ reg then reg else reg ++ [new_entry]

/-- Embeds `PackageFactory.create`: filter the registry by key, then (when the
argument is truthy) by library, then by label, raising on an empty result
at each stage; raise on an ambiguous final result; otherwise instantiate
`entries[0].class_def(**kwargs)`. The final `[]` branch is unreachable —
each emptiness guard ensures the surviving list is nonempty — and stands
for the out-of-range `entries[0]` Python would raise there. -/
def create (reg : List Entry) (key : String) (library label : Option String)
    (kwargs : Kwargs) : Except ProvidahError Instance :=
  let entries := reg.filter fun e => e.key == pyLower key
  if entries.length = 0 then
    Except.error (ProvidahError.unknownKey key)
  else
    let entries1 := if truthy library then entries.filter fun e => e.library == pyLower (pyStr library) else entries
    if truthy library && entries1.length == 0 then
      Except.error (ProvidahError.unknownLibrary (pyStr library) key)
    else
      let entries2 := if truthy label then entries1.filter fun e => e.label == pyLower (pyStr label) else entries1
      if truthy label && entries2.length == 0 then
        Except.error (ProvidahError.unknownLabel (pyStr label) key)
      else
        if entries2.length > 1 then
          Except.error (ProvidahError.ambiguousEntry key label library entries2.length)
        else
          match entries2 with
          | e :: _ => Except.ok { class_def := e.class_def, kwargs := kwargs }
          | [] => Except.error (ProvidahError.unknownKey key)

/-- The key/library/label filter chain of `create`, without the error
branches: the list of entries that survive all applied filters. -/
def filteredEntries (reg : List Entry) (key : String) (library label : Option String) : List Entry :=
  let entries := reg.filter fun e => e.key == pyLower key
  let entries1 := if truthy library then entries.filter fun e => e.library == pyLower (pyStr library) else entries
  if truthy label then entries1.filter fun e => e.label == pyLower (pyStr label) else entries1

/-- The state-transformer reading of `PackageFactory.create`: the method
reads `cls.__registry` once (in the key-filter comprehension) and its body
contains no statement assigning to or mutating `cls.__registry`, so the
post-state of the registry is the pre-state. -/
def createWithRegistry (reg : List Entry) (key : String) (library label : Option String)
    (kwargs : Kwargs) : Except ProvidahError Instance × List Entry :=
  (create reg key library label kwargs, reg)

end PackageFactory

/-! Scanner (`fill_registry` / `__add_entry_to_registry`). A discovered
unit is either a leaf module, whose dynamic import yields the `dir(...)`
listing of its members `(name, object)` or raises with some exception
text, or a package with child units. `PkgUnits` is a specialised list
kept mutual with `PkgUnit` so that recursion over trees is structural. -/

mutual
/-- One unit yielded by `pkgutil.iter_modules`: a leaf module (with the
outcome of importing it) or a package (with its children). The dotted
module path computed by `fill_registry` only feeds the `import`
statement, whose outcome is already the `load` field. -/
inductive PkgUnit where
  | module (name : String) (load : Except String (List (String × PyClass)))
  | package (name : String) (children : PkgUnits)

/-- The list of units under one directory. -/
inductive PkgUnits where
  | nil
  | cons (u : PkgUnit) (us : PkgUnits)
end

namespace PackageFactory

/-- Embeds `PackageFactory.__add_entry_to_registry`: import the module; on any
exception, raise `ProvidahError` with the traceback (the registry is left
as it was); on success, register every member of `dir(module)` whose name
does not start with `_` and does not lower to `packagefactory`, with
`key = dir_name.lower()`. -/
def add_entry_to_registry (reg : List Entry) (label : Option String) (library : String)
    (load : Except String (List (String × PyClass))) : List Entry × Option ProvidahError :=
  match load with
  | Except.error cause => (reg, some (ProvidahError.scanFailure cause))
  | Except.ok members =>
    (members.foldl
      (fun acc m =>
        if startsWithUnderscore m.1 then acc
        else if pyLower m.1 == "packagefactory" then acc
        else register acc (pyLower m.1) m.2 (some library) label)
      reg, none)

mutual
/-- Processing of a single discovered unit inside the `fill_registry`
loop: a leaf module goes to `__add_entry_to_registry`; a package recurses
into its children (the recursive `fill_registry` call, whose `library`
argument is already truthy and therefore not re-defaulted). -/
def scan_unit (library : String) (label : Option String) (reg : List Entry) :
    PkgUnit → List Entry × Option ProvidahError
  | PkgUnit.module _ load => add_entry_to_registry reg label library load
  | PkgUnit.package _ children => scan_units library label reg children

/-- The `for (_, name, is_a_package) in pkgutil.iter_modules(...)` loop of
`fill_registry`: process units left to right, stopping at the first
raised error (a raise aborts the loop and propagates). -/
def scan_units (library : String) (label : Option String) (reg : List Entry) :
    PkgUnits → List Entry × Option ProvidahError
  | PkgUnits.nil => (reg, none)
  | PkgUnits.cons u us =>
    match scan_unit library label reg u with
    | (reg1, none) => scan_units library label reg1 us
    | (reg1, some e) => (reg1, some e)
end

/-- Embeds `PackageFactory.fill_registry` on an already-resolved root: `module`
is the namespace name (inferred from the path when absent, a filesystem
step outside this model), `library` defaults to `module` when falsy, and
the unit loop runs over the discovered units. -/
def fill_registry (module : String) (library label : Option String) (reg : List Entry)
    (units : PkgUnits) : List Entry × Option ProvidahError :=
  scan_units (if truthy library then pyStr library else module) label reg units

end PackageFactory

open PackageFactory

/-! Basic lemmas. -/

theorem pyLower_eq_toLower (s : String) : pyLower s = s.toLower :=
  (String.map_eq Char.toLower s).symm

theorem toNat_ofNat_valid (n : Nat) (h : n.isValidChar) : (Char.ofNat n).toNat = n := by
  rw [Char.ofNat, dif_pos h]
  rfl

theorem char_toLower_toLower (c : Char) : c.toLower.toLower = c.toLower := by
  unfold Char.toLower
  by_cases h : c.toNat ≥ 65 ∧ c.toNat ≤ 90
  · rw [if_pos h]
    have hv : (c.toNat + 32).isValidChar := Or.inl (by omega)
    have ht : (Char.ofNat (c.toNat + 32)).toNat = c.toNat + 32 := toNat_ofNat_valid _ hv
    rw [if_neg (by rw [ht]; omega)]
  · rw [if_neg h, if_neg h]

theorem pyLower_idem (s : String) : pyLower (pyLower s) = pyLower s := by
  simp only [pyLower, List.map_map]
  exact congrArg String.mk (List.map_congr_left fun c _ => by
    simp only [Function.comp_apply, char_toLower_toLower])

/-- Example data: two constructors and the two-library registry of the
example scenario of the spec. -/
def ctorA : PyClass := PyClass.cls "CtorA"

def ctorB : PyClass := PyClass.cls "CtorB"

def twoLibReg : List Entry :=
  register (register [] "classa" ctorA (some "libx") none) "classa" ctorB (some "liby") none

/-- C1: in the two-entry scenario, `create("classa")` is ambiguous,
`create("classa", library="libx")` yields the instance of the libx constructor, and `create("classa", library="libz")` is an unknown-library
error: the library filter and its empty-result error run before the
ambiguity check. -/
theorem create_filters_library_before_ambiguity :
    create twoLibReg "classa" none none [] =
      Except.error (ProvidahError.ambiguousEntry "classa" none none 2) ∧
    create twoLibReg "classa" (some "libx") none [] =
      Except.ok { class_def := ctorA, kwargs := [] } ∧
    create twoLibReg "classa" (some "libz") none [] =
      Except.error (ProvidahError.unknownLibrary "libz" "classa") :=
  ⟨rfl, rfl, rfl⟩

/-- C4: when the key of no stored entry equals the lowercase form of the
requested key, `create` fails with the unknown-key error. -/
theorem create_unknown_key_error (reg : List Entry) (key : String)
    (library label : Option String) (kwargs : Kwargs)
    (h : ∀ e ∈ reg, e.key ≠ pyLower key) :
    create reg key library label kwargs = Except.error (ProvidahError.unknownKey key) := by
  have hnil : reg.filter (fun e => e.key == pyLower key) = [] :=
    List.filter_eq_nil_iff.mpr fun e he => by
      simpa using h e he
  unfold create
  rw [hnil]
  simp

/-- Witness for C4 at a concrete registry and key. -/
theorem create_unknown_key_error_witness :
    (∀ e ∈ twoLibReg, e.key ≠ pyLower "other") ∧
    create twoLibReg "other" none none [] =
      Except.error (ProvidahError.unknownKey "other") :=
  ⟨by decide, create_unknown_key_error twoLibReg "other" none none [] (by decide)⟩

/-- Registering leaves every existing entry in place and at most appends
the new entry. -/
theorem mem_register (reg : List Entry) (key : String) (class_def : PyClass)
    (library label : Option String) (x : Entry) (hx : x ∈ reg) :
    x ∈ register reg key class_def library label := by
  by_cases hc : mkEntry key class_def library label ∈ reg
  · simpa [register, hc] using hx
  · simp only [register, hc, if_false]
    exact List.mem_append_left _ hx

/-- The entry built by `register` is already in the result. -/
theorem mkEntry_mem_register (reg : List Entry) (key : String) (class_def : PyClass)
    (library label : Option String) :
    mkEntry key class_def library label ∈ register reg key class_def library label := by
  by_cases hc : mkEntry key class_def library label ∈ reg
  · simp [register, hc]
  · simp only [register, hc, if_false]
    exact List.mem_append_right _ (List.mem_singleton_self _)

/-- Every entry of the result of `register` is an old entry or the new one. -/
theorem mem_register_elim (reg : List Entry) (key : String) (class_def : PyClass)
    (library label : Option String) (x : Entry)
    (hx : x ∈ register reg key class_def library label) :
    x ∈ reg ∨ x = mkEntry key class_def library label := by
  by_cases hc : mkEntry key class_def library label ∈ reg
  · simp only [register, hc, if_true] at hx
    exact Or.inl hx
  · simp only [register, hc, if_false] at hx
    rcases List.mem_append.mp hx with h | h
    · exact Or.inl h
    · exact Or.inr (List.mem_singleton.mp h)

/-- C3: registering the same `(key, class_def, library, label)` tuple
twice is idempotent, the duplicate-free invariant is preserved, and on a
duplicate-free registry exactly one matching entry results. -/
theorem register_exact_duplicate_idempotent (reg : List Entry) (key : String)
    (class_def : PyClass) (library label : Option String) (h : reg.Nodup) :
    register (register reg key class_def library label) key class_def library label
      = register reg key class_def library label ∧
    (register (register reg key class_def library label) key class_def library label).count
      (mkEntry key class_def library label) = 1 ∧
    (register reg key class_def library label).Nodup := by
  have hmem := mkEntry_mem_register reg key class_def library label
  set R := register reg key class_def library label with hR
  have hidem : register R key class_def library label = R := by
    simp [register, hmem]
  have hnodup : R.Nodup := by
    rw [hR]
    by_cases hc : mkEntry key class_def library label ∈ reg
    · simpa [register, hc] using h
    · simp only [register, hc, if_false]
      simp [List.nodup_append, h, hc]
  refine ⟨hidem, ?_, hnodup⟩
  rw [hidem]
  exact List.count_eq_one_of_mem hnodup hmem

/-- Witness for C3 at a concrete registry and tuple. -/
theorem register_exact_duplicate_idempotent_witness :
    twoLibReg.Nodup ∧
    register (register twoLibReg "classa" ctorA (some "libx") none) "classa" ctorA (some "libx") none
      = register twoLibReg "classa" ctorA (some "libx") none :=
  ⟨by decide,
   (register_exact_duplicate_idempotent twoLibReg "classa" ctorA (some "libx") none (by decide)).1⟩

/-- An entry all of whose string fields are their own lowercase form. -/
def NormalizedEntry (e : Entry) : Prop :=
  pyLower e.key = e.key ∧ pyLower e.library = e.library ∧ pyLower e.label = e.label

/-- C7: the entry stored by `register` carries the lowercase form of the
supplied key, the lowercase library and label when supplied and the
literal string `"none"` when absent, and every registry all of whose
entries are lowercase-normalized stays so under `register`. -/
theorem register_stores_lowercased_fields (reg : List Entry) (key : String)
    (class_def : PyClass) (library label : Option String) :
    (mkEntry key class_def library label).key = pyLower key ∧
    (mkEntry key class_def library label).library =
      (match library with
       | some s => pyLower s
       | none => "none") ∧
    (mkEntry key class_def library label).label =
      (match label with
       | some s => pyLower s
       | none => "none") ∧
    ((∀ e ∈ reg, NormalizedEntry e) →
      ∀ e ∈ register reg key class_def library label, NormalizedEntry e) := by
  refine ⟨rfl, ?_, ?_, ?_⟩
  · cases library with
    | some s => rfl
    | none => rfl
  · cases label with
    | some s => rfl
    | none => rfl
  · intro hall e he
    rcases mem_register_elim reg key class_def library label e he with h | h
    · exact hall e h
    · subst h
      exact ⟨pyLower_idem key, pyLower_idem (pyStr library), pyLower_idem (pyStr label)⟩

/-- Witness for C7: the normalization implication at a concrete call. -/
theorem register_stores_lowercased_fields_witness :
    (∀ e ∈ ([] : List Entry), NormalizedEntry e) ∧
    ∀ e ∈ register [] "ClassA" ctorA (some "LibX") none, NormalizedEntry e :=
  ⟨fun e he => absurd he (List.not_mem_nil e),
   (register_stores_lowercased_fields [] "ClassA" ctorA (some "LibX") none).2.2.2
     (fun e he => absurd he (List.not_mem_nil e))⟩

/-- Core resolution lemma: a singleton filter-chain result makes `create`
instantiate that entry with the supplied arguments. -/
theorem create_of_filteredEntries_singleton (reg : List Entry) (key : String)
    (library label : Option String) (kwargs : Kwargs) (e : Entry)
    (h : filteredEntries reg key library label = [e]) :
    create reg key library label kwargs
      = Except.ok { class_def := e.class_def, kwargs := kwargs } := by
  have hmemf : e ∈ filteredEntries reg key library label := by
    rw [h]
    exact List.mem_singleton_self e
  unfold filteredEntries at h hmemf
  unfold create
  cases hlib : truthy library <;> cases hlab : truthy label <;>
    simp only [hlib, hlab, Bool.false_eq_true, Bool.true_and, Bool.false_and,
      if_true, if_false, ite_true, ite_false] at h hmemf ⊢
  · rw [h]
    simp
  · have he1 : e ∈ reg.filter fun x => x.key == pyLower key :=
      List.mem_of_mem_filter hmemf
    rw [if_neg (by rw [List.length_eq_zero]; exact List.ne_nil_of_mem he1), h]
    simp
  · have he1 : e ∈ reg.filter fun x => x.key == pyLower key :=
      List.mem_of_mem_filter hmemf
    rw [if_neg (by rw [List.length_eq_zero]; exact List.ne_nil_of_mem he1), h]
    simp
  · have he2 : e ∈ (reg.filter fun x => x.key == pyLower key).filter
        fun x => x.library == pyLower (pyStr library) :=
      List.mem_of_mem_filter hmemf
    have he1 : e ∈ reg.filter fun x => x.key == pyLower key :=
      List.mem_of_mem_filter he2
    rw [if_neg (by rw [List.length_eq_zero]; exact List.ne_nil_of_mem he1)]
    have hg2 : ¬(((reg.filter fun x => x.key == pyLower key).filter
        fun x => x.library == pyLower (pyStr library)).length == 0) = true := by
      simp only [beq_iff_eq, List.length_eq_zero]
      exact List.ne_nil_of_mem he2
    rw [if_neg hg2, h]
    simp

/-- C2: when exactly one entry survives the key filter and the applied
library/label filters, `create` returns an instance of the stored class of that entry built with exactly the supplied keyword arguments, whether
or not library and label were supplied. -/
theorem create_unique_match_constructs_instance (reg : List Entry) (key : String)
    (library label : Option String) (kwargs : Kwargs) (e : Entry)
    (h : filteredEntries reg key library label = [e]) :
    create reg key library label kwargs
      = Except.ok { class_def := e.class_def, kwargs := kwargs } :=
  create_of_filteredEntries_singleton reg key library label kwargs e h

/-- Witness for C2 at a concrete registry, with the library supplied. -/
theorem create_unique_match_constructs_instance_witness :
    filteredEntries twoLibReg "ClassA" (some "LibX") none = [mkEntry "classa" ctorA (some "libx") none] ∧
    create twoLibReg "ClassA" (some "LibX") none [("cfg", "1")]
      = Except.ok { class_def := (mkEntry "classa" ctorA (some "libx") none).class_def,
                    kwargs := [("cfg", "1")] } :=
  ⟨by decide,
   create_unique_match_constructs_instance twoLibReg "ClassA" (some "LibX") none
     [("cfg", "1")] (mkEntry "classa" ctorA (some "libx") none) (by decide)⟩

/-- Blank the library and label interpolations of the ambiguous-entry
message, leaving every other error (and the rest of that message)
unchanged. Two errors equal after this map differ at most in how the
ambiguity message prints the optional arguments. -/
def eraseAmbiguousArgs : ProvidahError → ProvidahError
  | ProvidahError.ambiguousEntry key _ _ n => ProvidahError.ambiguousEntry key none none n
  | e => e

/-- With two falsy `library` arguments, `create` behaves identically up
to the `library` interpolation of the ambiguity message. -/
theorem create_falsy_library_pair (reg : List Entry) (key : String)
    (lib1 lib2 label : Option String) (kwargs : Kwargs)
    (h1 : truthy lib1 = false) (h2 : truthy lib2 = false) :
    Except.mapError eraseAmbiguousArgs (create reg key lib1 label kwargs)
      = Except.mapError eraseAmbiguousArgs (create reg key lib2 label kwargs) := by
  unfold create
  simp only [h1, h2, Bool.false_eq_true, Bool.false_and, if_false, ite_false]
  by_cases hk : (reg.filter fun e => e.key == pyLower key).length = 0
  · simp only [if_pos hk]
  · simp only [if_neg hk]
    cases hlab : truthy label <;>
      simp only [Bool.false_eq_true, Bool.true_eq_false, Bool.true_and, Bool.false_and,
        if_false, ite_false, if_true, ite_true]
    · by_cases ha : (reg.filter fun e => e.key == pyLower key).length > 1
      · simp only [if_pos ha]
        rfl
      · simp only [if_neg ha]
    · by_cases hl : (((reg.filter fun e => e.key == pyLower key).filter
          fun e => e.label == pyLower (pyStr label)).length == 0) = true
      · simp only [if_pos hl]
      · simp only [if_neg hl]
        by_cases ha : ((reg.filter fun e => e.key == pyLower key).filter
            fun e => e.label == pyLower (pyStr label)).length > 1
        · simp only [if_pos ha]
          rfl
        · simp only [if_neg ha]

/-- With two falsy `label` arguments, `create` behaves identically up to
the `label` interpolation of the ambiguity message. -/
theorem create_falsy_label_pair (reg : List Entry) (key : String)
    (library lab1 lab2 : Option String) (kwargs : Kwargs)
    (h1 : truthy lab1 = false) (h2 : truthy lab2 = false) :
    Except.mapError eraseAmbiguousArgs (create reg key library lab1 kwargs)
      = Except.mapError eraseAmbiguousArgs (create reg key library lab2 kwargs) := by
  unfold create
  simp only [h1, h2, Bool.false_eq_true, Bool.false_and, if_false, ite_false]
  by_cases hk : (reg.filter fun e => e.key == pyLower key).length = 0
  · simp only [if_pos hk]
  · simp only [if_neg hk]
    cases hlib : truthy library <;>
      simp only [Bool.false_eq_true, Bool.true_eq_false, Bool.true_and, Bool.false_and,
        if_false, ite_false, if_true, ite_true]
    · by_cases ha : (reg.filter fun e => e.key == pyLower key).length > 1
      · simp only [if_pos ha]
        rfl
      · simp only [if_neg ha]
    · by_cases hl : (((reg.filter fun e => e.key == pyLower key).filter
          fun e => e.library == pyLower (pyStr library)).length == 0) = true
      · simp only [if_pos hl]
      · simp only [if_neg hl]
        by_cases ha : ((reg.filter fun e => e.key == pyLower key).filter
            fun e => e.library == pyLower (pyStr library)).length > 1
        · simp only [if_pos ha]
          rfl
        · simp only [if_neg ha]

/-- C9 counterexample: with two entries under the key, supplying the
empty string as `library` yields an ambiguity error whose message
interpolates the empty string, while omitting the argument interpolates
`None` — the two results are unequal, refuting exact result equality. -/
theorem create_empty_string_result_differs :
    create twoLibReg "classa" (some "") none [] ≠ create twoLibReg "classa" none none [] ∧
    create twoLibReg "classa" (some "") none []
      = Except.error (ProvidahError.ambiguousEntry "classa" none (some "") 2) ∧
    create twoLibReg "classa" none none []
      = Except.error (ProvidahError.ambiguousEntry "classa" none none 2) :=
  ⟨by decide, rfl, rfl⟩

/-- C9 amended: a falsy empty-string `library` (or `label`) argument is
never filtered on — the surviving entries are those of the omitted call —
and the result of the call equals that of the omitted call up to the
interpolation of that argument in the ambiguity message. -/
theorem create_empty_string_like_omitted (reg : List Entry) (key : String)
    (library label : Option String) (kwargs : Kwargs) :
    filteredEntries reg key (some "") label = filteredEntries reg key none label ∧
    filteredEntries reg key library (some "") = filteredEntries reg key library none ∧
    Except.mapError eraseAmbiguousArgs (create reg key (some "") label kwargs)
      = Except.mapError eraseAmbiguousArgs (create reg key none label kwargs) ∧
    Except.mapError eraseAmbiguousArgs (create reg key library (some "") kwargs)
      = Except.mapError eraseAmbiguousArgs (create reg key library none kwargs) :=
  ⟨rfl, rfl,
   create_falsy_library_pair reg key (some "") none label kwargs rfl rfl,
   create_falsy_label_pair reg key library (some "") none kwargs rfl rfl⟩

/-- C8: an explicit `library="none"` / `label="none"` argument (in any
letter case) matches entries registered with the argument absent. On a
registry not otherwise containing the key, an entry registered with both
arguments absent is resolved by the explicit-"none" call exactly as by
the omitted-argument call, yielding the same instance. -/
theorem create_explicit_none_matches_absent_default (reg : List Entry) (k : String)
    (cd : PyClass) (kwargs : Kwargs) (s t : String)
    (hkey : ∀ e ∈ reg, e.key ≠ pyLower k)
    (hs : pyLower s = "none") (ht : pyLower t = "none") :
    create (register reg k cd none none) k (some s) (some t) kwargs
      = Except.ok { class_def := cd, kwargs := kwargs } ∧
    create (register reg k cd none none) k none none kwargs
      = Except.ok { class_def := cd, kwargs := kwargs } := by
  have hnotin : mkEntry k cd none none ∉ reg := fun hmem => hkey _ hmem rfl
  have hreg : register reg k cd none none = reg ++ [mkEntry k cd none none] := by
    simp [register, hnotin]
  have hkeyf : (reg ++ [mkEntry k cd none none]).filter (fun e => e.key == pyLower k)
      = [mkEntry k cd none none] := by
    rw [List.filter_append]
    have h0 : reg.filter (fun e => e.key == pyLower k) = [] :=
      List.filter_eq_nil_iff.mpr fun e he => by simpa using hkey e he
    rw [h0]
    simp [mkEntry]
  have hsne : truthy (some s) = true := by
    cases hd : s.data with
    | nil =>
      have : ("none" : String).data = [] := by
        rw [← hs]
        simp [pyLower, hd]
      exact absurd this (by decide)
    | cons c cs => simp [truthy, hd]
  have htne : truthy (some t) = true := by
    cases hd : t.data with
    | nil =>
      have : ("none" : String).data = [] := by
        rw [← ht]
        simp [pyLower, hd]
      exact absurd this (by decide)
    | cons c cs => simp [truthy, hd]
  have hlib0 : (mkEntry k cd none none).library = "none" := rfl
  have hlab0 : (mkEntry k cd none none).label = "none" := rfl
  have hfilt1 : filteredEntries (register reg k cd none none) k (some s) (some t)
      = [mkEntry k cd none none] := by
    rw [hreg]
    unfold filteredEntries
    simp only [hsne, htne, ite_true, hkeyf]
    simp [pyStr, hs, ht, hlib0, hlab0]
  have hfilt2 : filteredEntries (register reg k cd none none) k none none
      = [mkEntry k cd none none] := by
    rw [hreg]
    unfold filteredEntries
    simp only [show truthy none = false from rfl, Bool.false_eq_true, ite_false]
    exact hkeyf
  exact ⟨create_of_filteredEntries_singleton _ _ _ _ kwargs _ hfilt1,
         create_of_filteredEntries_singleton _ _ _ _ kwargs _ hfilt2⟩

/-- Witness for C8: concrete registry, key and mixed-case "none"s. -/
theorem create_explicit_none_matches_absent_default_witness :
    (∀ e ∈ ([] : List Entry), e.key ≠ pyLower "classa") ∧
    pyLower "NoNe" = "none" ∧ pyLower "NONE" = "none" ∧
    create (register [] "classa" ctorA none none) "classa" (some "NoNe") (some "NONE") []
      = Except.ok { class_def := ctorA, kwargs := [] } :=
  ⟨fun e he => absurd he (List.not_mem_nil e), by decide, by decide,
   (create_explicit_none_matches_absent_default [] "classa" ctorA [] "NoNe" "NONE"
      (fun e he => absurd he (List.not_mem_nil e)) (by decide) (by decide)).1⟩

/-- C10: `create` never changes the registry: in the state-transformer
reading, the post-state equals the pre-state and the returned value is
exactly the functional result. -/
theorem create_leaves_registry_unchanged (reg : List Entry) (key : String)
    (library label : Option String) (kwargs : Kwargs) :
    (createWithRegistry reg key library label kwargs).2 = reg ∧
    (createWithRegistry reg key library label kwargs).1 = create reg key library label kwargs :=
  ⟨rfl, rfl⟩

/-! Scanner lemmas. -/

/-- The member-registration fold of `__add_entry_to_registry` keeps every
entry already in the accumulator. -/
theorem mem_member_fold (library : String) (label : Option String) :
    ∀ (ms : List (String × PyClass)) (acc : List Entry) (x : Entry), x ∈ acc →
      x ∈ ms.foldl
        (fun acc m =>
          if startsWithUnderscore m.1 then acc
          else if pyLower m.1 == "packagefactory" then acc
          else register acc (pyLower m.1) m.2 (some library) label)
        acc
  | [], _, _, hx => hx
  | m :: ms, acc, x, hx => by
    rw [List.foldl_cons]
    refine mem_member_fold library label ms _ x ?_
    dsimp only
    split
    · exact hx
    · split
      · exact hx
      · exact mem_register _ _ _ _ _ x hx

/-- The method `__add_entry_to_registry` keeps every entry already registered,
whether the import succeeds or raises. -/
theorem mem_add_entry_to_registry (library : String) (label : Option String)
    (load : Except String (List (String × PyClass))) (reg : List Entry) (x : Entry)
    (hx : x ∈ reg) : x ∈ (add_entry_to_registry reg label library load).1 := by
  cases load with
  | error cause => exact hx
  | ok members => exact mem_member_fold library label members reg x hx

mutual
/-- Scanning a unit keeps every entry already registered. -/
theorem mem_scan_unit (library : String) (label : Option String) (u : PkgUnit) :
    ∀ (reg : List Entry) (x : Entry), x ∈ reg → x ∈ (scan_unit library label reg u).1 :=
  match u with
  | PkgUnit.module _ load => fun reg x hx =>
    mem_add_entry_to_registry library label load reg x hx
  | PkgUnit.package _ children => fun reg x hx =>
    mem_scan_units library label children reg x hx

/-- Scanning a unit list keeps every entry already registered. -/
theorem mem_scan_units (library : String) (label : Option String) (us : PkgUnits) :
    ∀ (reg : List Entry) (x : Entry), x ∈ reg → x ∈ (scan_units library label reg us).1 :=
  match us with
  | PkgUnits.nil => fun _ _ hx => hx
  | PkgUnits.cons u us1 => fun reg x hx => by
    have h1 := mem_scan_unit library label u reg x hx
    unfold scan_units
    cases hres : scan_unit library label reg u with
    | mk reg1 oerr =>
      rw [hres] at h1
      cases oerr with
      | none => exact mem_scan_units library label us1 reg1 x h1
      | some e => exact h1
end

/-- Any error raised by `__add_entry_to_registry` is a scan failure
wrapping the exception text of the load. -/
theorem add_entry_to_registry_err (library : String) (label : Option String)
    (load : Except String (List (String × PyClass))) (reg : List Entry)
    (err : ProvidahError) (h : (add_entry_to_registry reg label library load).2 = some err) :
    ∃ cause, err = ProvidahError.scanFailure cause := by
  cases load with
  | error cause =>
    exact ⟨cause, (Option.some.inj h).symm⟩
  | ok members => exact absurd h (by simp [add_entry_to_registry])

mutual
/-- Any error raised while scanning a unit is a scan failure. -/
theorem scan_unit_err (library : String) (label : Option String) (u : PkgUnit) :
    ∀ (reg : List Entry) (err : ProvidahError), (scan_unit library label reg u).2 = some err →
      ∃ cause, err = ProvidahError.scanFailure cause :=
  match u with
  | PkgUnit.module _ load => fun reg err h =>
    add_entry_to_registry_err library label load reg err h
  | PkgUnit.package _ children => fun reg err h =>
    scan_units_err library label children reg err h

/-- Any error raised while scanning a unit list is a scan failure. -/
theorem scan_units_err (library : String) (label : Option String) (us : PkgUnits) :
    ∀ (reg : List Entry) (err : ProvidahError), (scan_units library label reg us).2 = some err →
      ∃ cause, err = ProvidahError.scanFailure cause :=
  match us with
  | PkgUnits.nil => fun reg err h => absurd h (by simp [scan_units])
  | PkgUnits.cons u us1 => fun reg err h => by
    unfold scan_units at h
    cases hres : scan_unit library label reg u with
    | mk reg1 oerr =>
      rw [hres] at h
      cases oerr with
      | none => exact scan_units_err library label us1 reg1 err h
      | some e =>
        have he : e = err := Option.some.inj h
        exact he ▸ scan_unit_err library label u reg e (by rw [hres])
end

/-- A one-unit scan that raises pins down the scan result of the unit itself. -/
theorem scan_units_single_err (library : String) (label : Option String) (u : PkgUnit)
    (reg reg1 : List Entry) (err : ProvidahError)
    (h : scan_units library label reg (PkgUnits.cons u PkgUnits.nil) = (reg1, some err)) :
    scan_unit library label reg u = (reg1, some err) := by
  unfold scan_units at h
  cases hres : scan_unit library label reg u with
  | mk reg2 oerr =>
    rw [hres] at h
    cases oerr with
    | none => simp [scan_units] at h
    | some e =>
      dsimp only at h
      cases h
      rfl

/-- C5: when loading a discovered unit raises, the scan of that unit and
any units after it returns immediately with the raised error, the error
is a scan failure wrapping the underlying cause, and every entry
registered before the failure is still in the returned registry. -/
theorem scan_failure_aborts_preserves_registrations (module : String)
    (library label : Option String) (reg reg1 : List Entry) (u : PkgUnit)
    (us : PkgUnits) (err : ProvidahError)
    (h : fill_registry module library label reg (PkgUnits.cons u PkgUnits.nil) = (reg1, some err)) :
    fill_registry module library label reg (PkgUnits.cons u us) = (reg1, some err) ∧
    (∃ cause, err = ProvidahError.scanFailure cause) ∧
    ∀ x ∈ reg, x ∈ reg1 := by
  unfold fill_registry at h ⊢
  have hu := scan_units_single_err _ label u reg reg1 err h
  refine ⟨?_, ?_, ?_⟩
  · unfold scan_units
    rw [hu]
  · exact scan_unit_err _ label u reg err (by rw [hu])
  · intro x hx
    have := mem_scan_unit (if truthy library then pyStr library else module) label u reg x hx
    rw [hu] at this
    exact this

/-- Witness for C5: a failing import at a concrete unit. -/
theorem scan_failure_aborts_preserves_registrations_witness :
    fill_registry "providah" none none [mkEntry "classa" ctorA (some "libx") none]
        (PkgUnits.cons (PkgUnit.module "bad" (Except.error "boom")) PkgUnits.nil)
      = ([mkEntry "classa" ctorA (some "libx") none], some (ProvidahError.scanFailure "boom")) ∧
    fill_registry "providah" none none [mkEntry "classa" ctorA (some "libx") none]
        (PkgUnits.cons (PkgUnit.module "bad" (Except.error "boom"))
          (PkgUnits.cons (PkgUnit.module "good" (Except.ok [("ClassB", ctorB)])) PkgUnits.nil))
      = ([mkEntry "classa" ctorA (some "libx") none], some (ProvidahError.scanFailure "boom")) ∧
    mkEntry "classa" ctorA (some "libx") none ∈ [mkEntry "classa" ctorA (some "libx") none] :=
  ⟨rfl,
   (scan_failure_aborts_preserves_registrations "providah" none none
      [mkEntry "classa" ctorA (some "libx") none] [mkEntry "classa" ctorA (some "libx") none]
      (PkgUnit.module "bad" (Except.error "boom"))
      (PkgUnits.cons (PkgUnit.module "good" (Except.ok [("ClassB", ctorB)])) PkgUnits.nil)
      (ProvidahError.scanFailure "boom") rfl).1,
   (scan_failure_aborts_preserves_registrations "providah" none none
      [mkEntry "classa" ctorA (some "libx") none] [mkEntry "classa" ctorA (some "libx") none]
      (PkgUnit.module "bad" (Except.error "boom"))
      (PkgUnits.cons (PkgUnit.module "good" (Except.ok [("ClassB", ctorB)])) PkgUnits.nil)
      (ProvidahError.scanFailure "boom") rfl).2.2 _ (List.mem_singleton_self _)⟩

/-- A module exposing the factory class under a public name other than
`PackageFactory` (as `from ... import PackageFactory as pf` would). -/
def aliasUnit : PkgUnit :=
  PkgUnit.module "helpers" (Except.ok [("pf", PyClass.packageFactoryClass)])

/-- C6 counterexample: the self-registration guard compares the member
NAME against `packagefactory`, so scanning a module that exposes the
factory class under the alias `pf` registers an entry whose stored
constructor is the own type of the factory. -/
theorem scan_registers_own_type_under_alias :
    ∃ e ∈ (fill_registry "providah" none none [] (PkgUnits.cons aliasUnit PkgUnits.nil)).1,
      e.class_def = PyClass.packageFactoryClass := by decide

/-- The member-registration fold of `__add_entry_to_registry` never adds
an entry whose key is `packagefactory`. -/
theorem member_fold_keys (library : String) (label : Option String) :
    ∀ (ms : List (String × PyClass)) (acc : List Entry),
      (∀ e ∈ acc, e.key ≠ "packagefactory") →
      ∀ e ∈ ms.foldl
        (fun acc m =>
          if startsWithUnderscore m.1 then acc
          else if pyLower m.1 == "packagefactory" then acc
          else register acc (pyLower m.1) m.2 (some library) label)
        acc, e.key ≠ "packagefactory"
  | [], _, h => h
  | m :: ms, acc, h => by
    rw [List.foldl_cons]
    refine member_fold_keys library label ms _ ?_
    dsimp only
    cases h1 : startsWithUnderscore m.1 with
    | true =>
      simp only [if_true, ite_true]
      exact h
    | false =>
      simp only [Bool.false_eq_true, if_false, ite_false]
      cases h2 : pyLower m.1 == "packagefactory" with
      | true =>
        simp only [if_true, ite_true]
        exact h
      | false =>
        simp only [Bool.false_eq_true, if_false, ite_false]
        intro e he
        rcases mem_register_elim acc (pyLower m.1) m.2 (some library) label e he with hold | hnew
        · exact h e hold
        · subst hnew
          show pyLower (pyLower m.1) ≠ "packagefactory"
          rw [pyLower_idem]
          intro hc
          simp [hc] at h2

/-- The method `__add_entry_to_registry` preserves the absence of a
`packagefactory` key. -/
theorem add_entry_keys (library : String) (label : Option String)
    (load : Except String (List (String × PyClass))) (reg : List Entry)
    (h : ∀ e ∈ reg, e.key ≠ "packagefactory") :
    ∀ e ∈ (add_entry_to_registry reg label library load).1, e.key ≠ "packagefactory" := by
  cases load with
  | error cause => exact h
  | ok members => exact member_fold_keys library label members reg h

mutual
/-- Scanning a unit preserves the absence of a `packagefactory` key. -/
theorem scan_unit_keys (library : String) (label : Option String) (u : PkgUnit) :
    ∀ reg : List Entry, (∀ e ∈ reg, e.key ≠ "packagefactory") →
      ∀ e ∈ (scan_unit library label reg u).1, e.key ≠ "packagefactory" :=
  match u with
  | PkgUnit.module _ load => fun reg h => add_entry_keys library label load reg h
  | PkgUnit.package _ children => fun reg h => scan_units_keys library label children reg h

/-- Scanning a unit list preserves the absence of a `packagefactory` key. -/
theorem scan_units_keys (library : String) (label : Option String) (us : PkgUnits) :
    ∀ reg : List Entry, (∀ e ∈ reg, e.key ≠ "packagefactory") →
      ∀ e ∈ (scan_units library label reg us).1, e.key ≠ "packagefactory" :=
  match us with
  | PkgUnits.nil => fun _ h => h
  | PkgUnits.cons u us1 => fun reg h => by
    have h1 := scan_unit_keys library label u reg h
    unfold scan_units
    cases hres : scan_unit library label reg u with
    | mk reg1 oerr =>
      rw [hres] at h1
      cases oerr with
      | none => exact scan_units_keys library label us1 reg1 h1
      | some e => exact h1
end

/-- C6 amended: the guard is by name — a scan never registers an entry
under the key `packagefactory`, whatever the value of the member is (though
the factory type itself can be registered under another name, see the
counterexample). -/
theorem scan_skips_packagefactory_by_name (module : String) (library label : Option String)
    (reg : List Entry) (us : PkgUnits)
    (h : ∀ e ∈ reg, e.key ≠ "packagefactory") :
    ∀ e ∈ (fill_registry module library label reg us).1, e.key ≠ "packagefactory" := by
  unfold fill_registry
  exact scan_units_keys _ label us reg h

/-- A module exposing the factory class under its own name, plus an
ordinary class. -/
def guardUnit : PkgUnit :=
  PkgUnit.module "factories"
    (Except.ok [("PackageFactory", PyClass.packageFactoryClass), ("ClassA", ctorA)])

/-- Witness for the amended C6 at a concrete scan. -/
theorem scan_skips_packagefactory_by_name_witness :
    (∀ e ∈ ([] : List Entry), e.key ≠ "packagefactory") ∧
    ∀ e ∈ (fill_registry "providah" none none [] (PkgUnits.cons guardUnit PkgUnits.nil)).1,
      e.key ≠ "packagefactory" :=
  ⟨fun e he => absurd he (List.not_mem_nil e),
   scan_skips_packagefactory_by_name "providah" none none []
     (PkgUnits.cons guardUnit PkgUnits.nil)
     (fun e he => absurd he (List.not_mem_nil e))⟩